import Mathlib

/-!
Shallow embedding of the autonomous-navigation core of the buggy robot:
the scan scheduler (`src/jetson/app/sensing.py` with `utils.py`) and the
avoidance state machine (`src/phase-1/jetson/app/controller.py`).

Conventions of the embedding:
* Python `float` distances become `ℚ`; a NaN-able slot becomes `Option ℚ`
  with `none` playing the role of NaN (the code only ever compares
  distances and checks `x == x`, so this is faithful).
* Millisecond timestamps (Python `int`) become `Int`; the current time is
  passed into each tick explicitly.
* `float(payload)` parsing is a parameter `pf : String → Option ℚ`:
  `some v` models a successful parse, `none` models `ValueError`.
* Serial traffic is explicit: a tick takes the list of inbound lines the
  link would yield (ending when exhausted, `""` modelling an empty read)
  and returns the list of outbound command lines it writes.
-/

namespace Robot

/-! ## utils.py -/

/-- `median` from `utils.py`: `statistics.median` of the values, `none`
(NaN) for an empty list. For odd length the middle element of the sorted
list, for even length the mean of the two middle elements. -/
def median (vs : List ℚ) : Option ℚ :=
  match vs with
  | [] => none
  | _ =>
    let s := vs.mergeSort (· ≤ ·)
    let n := vs.length
    if n % 2 = 1 then s.get? (n / 2)
    else do
      let a ← s.get? (n / 2 - 1)
      let b ← s.get? (n / 2)
      pure ((a + b) / 2)

/-! ## sensing.py : configuration -/

/-- The configuration fields `SensingOrchestrator.__init__` reads, after
the integer casts; `center_deg` is already `90 + center_trim_deg`. -/
structure SweepCfg where
  rescan_ms : Int
  servo_settle_ms : Int
  meas_cooldown_ms : Int
  center_deg : Int
  left_deg : Int
  right_deg : Int
  step_deg : Int
  samples_per_point : Nat
  deriving Repr, DecidableEq

/-- `max(2, samples_per_point * 2)` from `__init__`. -/
def max_attempts_per_point (c : SweepCfg) : Nat :=
  max 2 (c.samples_per_point * 2)

/-- One iteration of the `while True` loop of `_build_angles_cycle`,
with explicit fuel standing in for the unbounded loop; `none` means the
fuel ran out before the loop exited. Each iteration appends
`center - k*step` when it is `≥ right_deg`, then `center + k*step` when
it is `≤ left_deg`, and stops when neither was appended. -/
def buildAnglesAux (c : SweepCfg) : Nat → Nat → List Int → Option (List Int)
  | 0, _, _ => none
  | fuel + 1, k, angles =>
    let r : Int := c.center_deg - (k : Int) * c.step_deg
    let l : Int := c.center_deg + (k : Int) * c.step_deg
    let p1 := if c.right_deg ≤ r then (angles ++ [r], true) else (angles, false)
    let p2 := if l ≤ c.left_deg then (p1.1 ++ [l], true) else p1
    if p2.2 then buildAnglesAux c fuel (k + 1) p2.1 else some p2.1

/-- Fuel sufficient for every terminating run of the loop (one unit per
iteration until both arms leave the bounds, plus slack). -/
def anglesFuel (c : SweepCfg) : Nat :=
  (max (c.center_deg - c.right_deg) (c.left_deg - c.center_deg)).toNat + 2

/-- `_build_angles_cycle`: the loop run from `k = 1` on `[center_deg]`. -/
def build_angles_cycle (c : SweepCfg) : Option (List Int) :=
  buildAnglesAux c (anglesFuel c) 1 [c.center_deg]

/-- The loop of `_build_angles_cycle` exits after finitely many
iterations (some amount of fuel suffices). -/
def cycleTerminates (c : SweepCfg) : Prop :=
  ∃ n, (buildAnglesAux c n 1 [c.center_deg]).isSome

/-! ## sensing.py : per-instance state -/

/-- The mutable attributes of `SensingOrchestrator` (the angle cycle is
built once in `__init__` and carried here unchanged). -/
structure SensState where
  angles_cycle : List Int
  cycle_index : Nat
  last_scan_ms : Int
  last_ping_ms : Int
  servo_move_ms : Int
  samples : List ℚ
  awaiting_ping : Bool
  current_servo_deg : Int
  attempts : Nat
  dist_left : Option ℚ
  dist_center : Option ℚ
  dist_right : Option ℚ
  last_valid_center_ms : Int
  last_valid_left_ms : Int
  last_valid_right_ms : Int
  deriving Repr, DecidableEq

/-- The initial attribute values set by `__init__` for a built cycle. -/
def SensState.init (c : SweepCfg) (cycle : List Int) : SensState :=
  { angles_cycle := cycle
    cycle_index := 0
    last_scan_ms := 0
    last_ping_ms := 0
    servo_move_ms := 0
    samples := []
    awaiting_ping := false
    current_servo_deg := c.center_deg
    attempts := 0
    dist_left := none
    dist_center := none
    dist_right := none
    last_valid_center_ms := 0
    last_valid_left_ms := 0
    last_valid_right_ms := 0 }

/-- `_send_servo`: writes `SERVO,<deg>`, records the move time, clears
the awaiting flag, sample buffer and attempt counter. -/
def send_servo (s : SensState) (now : Int) (deg : Int) : SensState × List String :=
  ({ s with servo_move_ms := now
            awaiting_ping := false
            samples := []
            current_servo_deg := deg
            attempts := 0 },
   ["SERVO," ++ toString deg])

/-- `_send_ping`: writes `PING`, sets the awaiting flag, records the ping
time and increments the attempt counter. -/
def send_ping (s : SensState) (now : Int) : SensState × List String :=
  ({ s with awaiting_ping := true
            last_ping_ms := now
            attempts := s.attempts + 1 },
   ["PING"])

/-- `line.startswith("DIST,")`, expressed on the character list so that
it evaluates inside the kernel. -/
def is_dist_line (line : String) : Prop :=
  line.data.take 5 = "DIST,".data

instance (line : String) : Decidable (is_dist_line line) := by
  unfold is_dist_line; infer_instance

/-- The payload `line.split(",", 1)[1]` of a `DIST,` line: everything
after `DIST,` (the first comma is at index 4). -/
def dist_payload (line : String) : String :=
  ⟨line.data.drop 5⟩

/-- The body of `_consume_lines` for one inbound line: a `DIST,` line
has its payload (everything after the first comma) parsed unless it is
`NA`; a parse success appends a sample; every `DIST,` line clears the
awaiting flag; other lines are ignored. -/
def consume_line (pf : String → Option ℚ) (s : SensState) (line : String) : SensState :=
  if is_dist_line line then
    let payload := dist_payload line
    let s1 :=
      if payload ≠ "NA" then
        match pf payload with
        | some cm => { s with samples := s.samples ++ [cm] }
        | none => s
      else s
    { s1 with awaiting_ping := false }
  else s

/-- `_consume_lines`: drain the available lines, stopping at an empty
read (`if not line: break`). -/
def consume_lines (pf : String → Option ℚ) (s : SensState) : List String → SensState
  | [] => s
  | line :: rest =>
    if line = "" then s
    else consume_lines pf (consume_line pf s line) rest

/-- The give-up / success epilogue shared by both resolutions in `tick`:
advance the cycle index and reset the per-point fields. -/
def advance_point (s : SensState) : SensState :=
  { s with cycle_index := (s.cycle_index + 1) % s.angles_cycle.length
           servo_move_ms := 0
           awaiting_ping := false
           samples := []
           attempts := 0 }

/-- `SensingOrchestrator.tick`, with the current time and the inbound
lines supplied explicitly; returns the new state and the outbound lines
written this tick. Mirrors the source order: (1) possibly command a new
scan point and return early; (2) after settle, give up or ping;
(3) drain inbound lines; (4) on enough samples write the matching slot
and advance. -/
def SensingOrchestrator.tick (c : SweepCfg) (pf : String → Option ℚ)
    (s : SensState) (now : Int) (lines : List String) : SensState × List String :=
  if c.rescan_ms ≤ now - s.last_scan_ms ∧ s.awaiting_ping = false ∧ s.samples = [] then
    let target := s.angles_cycle.getD s.cycle_index 0
    let p := send_servo s now target
    ({ p.1 with last_scan_ms := now }, p.2)
  else
    let step1 : SensState × List String :=
      if 0 < s.servo_move_ms ∧ c.servo_settle_ms ≤ now - s.servo_move_ms then
        if s.samples.length < c.samples_per_point ∧ s.awaiting_ping = false then
          if max_attempts_per_point c ≤ s.attempts then
            let angle := s.angles_cycle.getD s.cycle_index 0
            let s1 :=
              if angle = c.center_deg then { s with dist_center := none }
              else if angle = c.left_deg then { s with dist_left := none }
              else if angle = c.right_deg then { s with dist_right := none }
              else s
            (advance_point s1, [])
          else if s.samples.length = 0 ∨ c.meas_cooldown_ms ≤ now - s.last_ping_ms then
            send_ping s now
          else (s, [])
        else (s, [])
      else (s, [])
    let s2 := consume_lines pf step1.1 lines
    let s3 :=
      if c.samples_per_point ≤ s2.samples.length then
        let m := median s2.samples
        let angle := s2.angles_cycle.getD s2.cycle_index 0
        let s' :=
          if angle = c.center_deg then
            { s2 with dist_center := m, last_valid_center_ms := now }
          else if angle = c.left_deg then
            { s2 with dist_left := m, last_valid_left_ms := now }
          else if angle = c.right_deg then
            { s2 with dist_right := m, last_valid_right_ms := now }
          else s2
        advance_point s'
      else s2
    (s3, step1.2)

/-! ## controller.py : configuration and state -/

/-- The `Hysteresis` dataclass of `controller.py` (cm thresholds). -/
structure Hysteresis where
  slow_enter : ℚ
  slow_exit : ℚ
  turn_enter : ℚ
  turn_exit : ℚ
  stop_enter : ℚ
  stop_exit : ℚ
  deriving Repr, DecidableEq

/-- The cadence configuration `ControlStateMachine.__init__` reads. -/
structure CtrlCfg where
  hyst : Hysteresis
  min_turn_ms : Int
  backoff_ms : Int
  rescan_ms : Int
  stall_timer_ms : Int
  deriving Repr, DecidableEq

/-- The mutable attributes of `ControlStateMachine`. Mode and commands
stay the strings the source uses. -/
structure CtrlState where
  speed : String
  state : String
  commit_until_ms : Int
  backoff_until_ms : Int
  stall_start_ms : Int
  last_log_ms : Int
  last_cmd : String
  deriving Repr, DecidableEq

/-- Initial attribute values from `__init__`. -/
def CtrlState.init : CtrlState :=
  { speed := "FAST"
    state := "CRUISE"
    commit_until_ms := 0
    backoff_until_ms := 0
    stall_start_ms := 0
    last_log_ms := 0
    last_cmd := "" }

/-- The default threshold values from `__init__`. -/
def defaultHyst : Hysteresis :=
  { slow_enter := 60, slow_exit := 75, turn_enter := 35, turn_exit := 45
    stop_enter := 20, stop_exit := 30 }

/-- The default cadence values from `__init__`. -/
def defaultCtrlCfg : CtrlCfg :=
  { hyst := defaultHyst, min_turn_ms := 550, backoff_ms := 500
    rescan_ms := 200, stall_timer_ms := 2500 }

/-- `_send_once`: transmit only a non-empty command that differs from
the last command actually sent; returns the new `last_cmd` and the
transmitted line, if any. -/
def send_once (last_cmd cmd : String) : String × Option String :=
  if cmd ≠ "" ∧ cmd ≠ last_cmd then (cmd, some cmd) else (last_cmd, none)

/-- `_update_speed`: FAST/SLOW hysteresis on the center distance. -/
def update_speed (c : CtrlCfg) (s : CtrlState) (dist_center : ℚ) : CtrlState :=
  if s.speed = "FAST" ∧ dist_center < c.hyst.slow_enter then { s with speed := "SLOW" }
  else if s.speed = "SLOW" ∧ c.hyst.slow_exit < dist_center then { s with speed := "FAST" }
  else s

/-- `_decide_action`: returns the updated state with the chosen command
and decision label. Branch order as in the source: stop-enter backoff
entry, commit-window hold, turn-enter arc, turn-exit cruise, default
forward. -/
def decide_action (c : CtrlCfg) (s : CtrlState) (now : Int) (dl dc dr : ℚ) :
    CtrlState × String × String :=
  if dc < c.hyst.stop_enter ∧ s.state ≠ "BACKOFF" then
    ({ s with state := "BACKOFF", backoff_until_ms := now + c.backoff_ms },
     "B,SLOW", "BACKOFF")
  else if (s.state = "AVOID_ARC" ∨ s.state = "AVOID_SPIN") ∧ now < s.commit_until_ms then
    (s, s.last_cmd, s.state)
  else if dc < c.hyst.turn_enter then
    if dr < dl then
      ({ s with state := "AVOID_ARC", commit_until_ms := now + c.min_turn_ms },
       "L,SLOW", "AVOID_ARC")
    else
      ({ s with state := "AVOID_ARC", commit_until_ms := now + c.min_turn_ms },
       "R,SLOW", "AVOID_ARC")
  else if c.hyst.turn_exit < dc then
    ({ s with state := "CRUISE" }, "F," ++ s.speed, "CRUISE")
  else
    (s, "F," ++ s.speed, "CRUISE")

/-- The per-tick inputs the machine reads from outside: the three
direction readings (`none` = NaN), the sensing layer's last-valid-center
timestamp, and the current time. -/
structure CtrlInput where
  dl : Option ℚ
  dc : Option ℚ
  dr : Option ℚ
  last_valid_center_ms : Int
  now : Int
  deriving Repr, DecidableEq

/-- What one controller tick produces besides the new state: the command
variable it settled on, the decision label, and the line actually
transmitted (after de-duplication), if any. -/
structure TickOut where
  cmd : String
  decision : String
  sent : Option String
  deriving Repr, DecidableEq

/-- The sensor-recovery condition at the top of `tick`: no center reading
ever valid, or the last valid one older than three rescan intervals. -/
def recovery_due (c : CtrlCfg) (lastValid now : Int) : Prop :=
  lastValid = 0 ∨ c.rescan_ms * 3 < now - lastValid

instance (c : CtrlCfg) (lv now : Int) : Decidable (recovery_due c lv now) := by
  unfold recovery_due
  infer_instance

/-- The value flowing between the consecutive if-blocks of `tick`: the
machine state together with the cmd and decision variables. -/
abbrev Stage := CtrlState × String × String

/-- The sensor-recovery block of `tick`. -/
def recovery_stage (c : CtrlCfg) (s : CtrlState) (lastValid now : Int) : Stage :=
  if recovery_due c lastValid now then
    ({ s with state := "SENSOR_RECOVERY" }, "F,SLOW", "SENSOR_RECOVERY")
  else (s, "", "")

/-- The `BACKOFF and not cmd` block of `tick`: repeat reverse while the
backoff timer runs, else switch to AVOID_SPIN toward the wider side and
open a commit window. -/
def backoff_stage (c : CtrlCfg) (now : Int) (dl dr : ℚ) (t : Stage) : Stage :=
  if t.1.state = "BACKOFF" ∧ t.2.1 = "" then
    if now < t.1.backoff_until_ms then (t.1, "B,SLOW", "BACKOFF")
    else if dr < dl then
      ({ t.1 with state := "AVOID_SPIN", commit_until_ms := now + c.min_turn_ms },
       "SPINL", "AVOID_SPIN")
    else
      ({ t.1 with state := "AVOID_SPIN", commit_until_ms := now + c.min_turn_ms },
       "SPINR", "AVOID_SPIN")
  else t

/-- The `if not cmd` block of `tick`: fall through to `_decide_action`. -/
def decide_stage (c : CtrlCfg) (now : Int) (dl dc dr : ℚ) (t : Stage) : Stage :=
  if t.2.1 = "" then decide_action c t.1 now dl dc dr else t

/-- The stall-detection block of `tick`, suppressed while in BACKOFF. -/
def stall_stage (c : CtrlCfg) (now : Int) (dc : ℚ) (t : Stage) : Stage :=
  if t.1.state ≠ "BACKOFF" then
    if dc < c.hyst.turn_exit then
      if t.1.stall_start_ms = 0 then ({ t.1 with stall_start_ms := now }, t.2)
      else if c.stall_timer_ms < now - t.1.stall_start_ms ∧ t.1.commit_until_ms ≤ now then
        ({ t.1 with state := "BACKOFF", backoff_until_ms := now + c.backoff_ms },
         "B,SLOW", "STALL_BACKOFF")
      else t
    else ({ t.1 with stall_start_ms := 0 }, t.2)
  else t

/-- The tail of `tick`: de-duplicated send and telemetry-time update. -/
def emit_stage (c : CtrlCfg) (now : Int) (t : Stage) : CtrlState × TickOut :=
  let snd := send_once t.1.last_cmd t.2.1
  let s5 := { t.1 with last_cmd := snd.1 }
  let s6 := if c.rescan_ms ≤ now - s5.last_log_ms then { s5 with last_log_ms := now } else s5
  (s6, { cmd := t.2.1, decision := t.2.2, sent := snd.2 })

/-- `ControlStateMachine.tick`: NaN substitution by the 999 sentinel,
speed hysteresis, then the if-blocks of the source in order: sensor
recovery, backoff progress / backoff-elapsed spin, `_decide_action` when
no command chosen yet, stall detection (suppressed in BACKOFF),
de-duplicated send and telemetry-time update. -/
def ControlStateMachine.tick (c : CtrlCfg) (s : CtrlState) (inp : CtrlInput) :
    CtrlState × TickOut :=
  let dc := inp.dc.getD 999
  let dl := inp.dl.getD 999
  let dr := inp.dr.getD 999
  let s0 := update_speed c s dc
  emit_stage c inp.now
    (stall_stage c inp.now dc
      (decide_stage c inp.now dl dc dr
        (backoff_stage c inp.now dl dr
          (recovery_stage c s0 inp.last_valid_center_ms inp.now))))

/-- Iterated controller ticks over a list of per-tick inputs. -/
def ControlStateMachine.ticks (c : CtrlCfg) : CtrlState → List CtrlInput →
    CtrlState × List TickOut
  | s, [] => (s, [])
  | s, i :: rest =>
    let p := ControlStateMachine.tick c s i
    let q := ControlStateMachine.ticks c p.1 rest
    (q.1, p.2 :: q.2)

/-- Iterated sensing ticks, each step supplying a time and the inbound
lines available at that tick; collects all outbound lines. -/
def SensingOrchestrator.ticks (c : SweepCfg) (pf : String → Option ℚ) :
    SensState → List (Int × List String) → SensState × List String
  | s, [] => (s, [])
  | s, step :: rest =>
    let p := SensingOrchestrator.tick c pf s step.1 step.2
    let q := SensingOrchestrator.ticks c pf p.1 rest
    (q.1, p.2 ++ q.2)

/-! ## Concrete instances used by the verification -/

/-- The default sweep/cadence values from `SensingOrchestrator.__init__`
(center trim 0). -/
def defaultSweepCfg : SweepCfg :=
  { rescan_ms := 200, servo_settle_ms := 100, meas_cooldown_ms := 40
    center_deg := 90, left_deg := 135, right_deg := 45, step_deg := 15
    samples_per_point := 3 }

/-- The angle cycle the default configuration builds. -/
def defaultAngles : List Int := [90, 75, 105, 60, 120, 45, 135]

/-- A default configuration whose center trim is 100, so the center
angle 190 lies beyond the left bound 135. -/
def trimCfg : SweepCfg := { defaultSweepCfg with center_deg := 190 }

/-- The angle cycle the trim-100 configuration builds. -/
def trimAngles : List Int := [190, 175, 160, 145, 130, 115, 100, 85, 70, 55]

/-- A default configuration with sweep step 0. -/
def stepZeroCfg : SweepCfg := { defaultSweepCfg with step_deg := 0 }

/-- A concrete stand-in for Python `float` payload parsing, used to
instantiate the parse parameter in witnesses. -/
def pfW : String → Option ℚ := fun t => if t = "42" then some 42 else none

/-- A sensing state waiting on a ranging reply (awaiting flag set). -/
def awaitState : SensState :=
  { SensState.init defaultSweepCfg defaultAngles with
      last_scan_ms := 800, last_ping_ms := 900, servo_move_ms := 800
      awaiting_ping := true, attempts := 1 }

/-- Controller state inside an open AVOID_ARC commit window, holding the
command chosen at window open. -/
def commitState : CtrlState :=
  { speed := "SLOW", state := "AVOID_ARC", commit_until_ms := 1000
    backoff_until_ms := 0, stall_start_ms := 0, last_log_ms := 0
    last_cmd := "L,SLOW" }

/-- An in-window tick input whose fresh center reading has dropped below
stop-enter. -/
def commitInput : CtrlInput :=
  { dl := some 80, dc := some 15, dr := some 40
    last_valid_center_ms := 450, now := 500 }

/-- An in-window tick input with a fresh, unthreatening center reading. -/
def commitHoldIn1 : CtrlInput :=
  { dl := some 80, dc := some 40, dr := some 40
    last_valid_center_ms := 450, now := 500 }

/-- A second such input, later in the same window. -/
def commitHoldIn2 : CtrlInput :=
  { dl := some 20, dc := some 55, dr := some 90
    last_valid_center_ms := 600, now := 700 }

/-- Controller state with a running stall timer and a stale (but once
valid) center slot retaining a low reading. -/
def staleStallState : CtrlState :=
  { speed := "SLOW", state := "CRUISE", commit_until_ms := 0
    backoff_until_ms := 0, stall_start_ms := 1, last_log_ms := 0
    last_cmd := "F,SLOW" }

/-- A tick input whose last valid center reading is 4000 ms old while the
retained center distance (30 cm) sits below turn-exit. -/
def staleStallInput : CtrlInput :=
  { dl := some 80, dc := some 30, dr := some 40
    last_valid_center_ms := 1000, now := 5000 }

/-- Controller state whose center slot has never been valid. -/
def recoveryState : CtrlState :=
  { speed := "FAST", state := "CRUISE", commit_until_ms := 0
    backoff_until_ms := 0, stall_start_ms := 0, last_log_ms := 0
    last_cmd := "" }

/-- A tick input with the never-valid center timestamp 0. -/
def recoveryInput : CtrlInput :=
  { dl := some 80, dc := none, dr := some 40
    last_valid_center_ms := 0, now := 100 }

/-- Controller state in the middle of a BACKOFF window. -/
def staleBackoffState : CtrlState :=
  { speed := "SLOW", state := "BACKOFF", commit_until_ms := 0
    backoff_until_ms := 10000, stall_start_ms := 0, last_log_ms := 0
    last_cmd := "B,SLOW" }

/-- A mid-backoff input: center still below stop-enter but the last valid
center reading 4000 ms old. -/
def staleBackoffInput : CtrlInput :=
  { dl := some 80, dc := some 15, dr := some 40
    last_valid_center_ms := 1000, now := 5000 }

/-- A mid-backoff input with a fresh center reading below stop-enter. -/
def backoffHoldInput : CtrlInput :=
  { dl := some 80, dc := some 15, dr := some 40
    last_valid_center_ms := 4950, now := 5000 }

/-- Controller state whose backoff window ends at 500 ms. -/
def spinState : CtrlState :=
  { speed := "SLOW", state := "BACKOFF", commit_until_ms := 0
    backoff_until_ms := 500, stall_start_ms := 0, last_log_ms := 0
    last_cmd := "B,SLOW" }

/-- A fresh input at 520 ms with left clearance 80 over right 40. -/
def spinInput : CtrlInput :=
  { dl := some 80, dc := some 15, dr := some 40
    last_valid_center_ms := 500, now := 520 }

/-! ## Helper lemmas -/

lemma is_dist_line_ne_empty {line : String} (h : is_dist_line line) : line ≠ "" := by
  intro he
  subst he
  revert h
  decide

lemma consume_lines_no_dist (pf : String → Option ℚ) :
    ∀ (lines : List String) (s : SensState),
      (∀ l ∈ lines, ¬ is_dist_line l) → consume_lines pf s lines = s := by
  intro lines
  induction lines with
  | nil => intro s _; rfl
  | cons l rest ih =>
    intro s h
    by_cases he : l = ""
    · simp [consume_lines, he]
    · have hd : ¬ is_dist_line l := h l (by simp)
      simp only [consume_lines, if_neg he, consume_line, if_neg hd]
      exact ih s fun x hx => h x (by simp [hx])

lemma tick_awaiting_frozen (c : SweepCfg) (pf : String → Option ℚ) (s : SensState)
    (now : Int) (lines : List String)
    (hw : s.awaiting_ping = true)
    (hs : s.samples.length < c.samples_per_point)
    (hl : ∀ l ∈ lines, ¬ is_dist_line l) :
    SensingOrchestrator.tick c pf s now lines = (s, []) := by
  have h1 : ¬ (c.rescan_ms ≤ now - s.last_scan_ms ∧ s.awaiting_ping = false ∧ s.samples = []) := by
    simp [hw]
  have h2 : ¬ (s.samples.length < c.samples_per_point ∧ s.awaiting_ping = false) := by
    simp [hw]
  simp only [SensingOrchestrator.tick, if_neg h1, if_neg h2, ite_self]
  rw [consume_lines_no_dist pf lines s hl, if_neg (not_le.mpr hs)]

lemma buildAnglesAux_stepZero (n : Nat) : ∀ (k : Nat) (acc : List Int),
    buildAnglesAux stepZeroCfg n k acc = none := by
  induction n with
  | zero => intro k acc; rfl
  | succ m ih =>
    intro k acc
    simp only [buildAnglesAux]
    norm_num [stepZeroCfg, defaultSweepCfg]
    exact ih _ _

lemma buildAnglesAux_succ (c : SweepCfg) (fuel k : Nat) (acc : List Int) :
    buildAnglesAux c (fuel + 1) k acc =
      (let r : Int := c.center_deg - (k : Int) * c.step_deg
       let l : Int := c.center_deg + (k : Int) * c.step_deg
       let p1 := if c.right_deg ≤ r then (acc ++ [r], true) else (acc, false)
       let p2 := if l ≤ c.left_deg then (p1.1 ++ [l], true) else p1
       if p2.2 then buildAnglesAux c fuel (k + 1) p2.1 else some p2.1) := rfl

lemma buildAnglesAux_exits (c : SweepCfg) (hstep : 1 ≤ c.step_deg) :
    ∀ (m k : Nat) (acc : List Int),
      (max (c.center_deg - c.right_deg) (c.left_deg - c.center_deg)).toNat + 1 ≤ k + m →
      (buildAnglesAux c (m + 1) k acc).isSome = true := by
  intro m
  induction m with
  | zero =>
    intro k acc hk
    have hkk : ((max (c.center_deg - c.right_deg) (c.left_deg - c.center_deg)).toNat : Int)
        < (k : Int) := by exact_mod_cast hk
    have hmax : max (c.center_deg - c.right_deg) (c.left_deg - c.center_deg)
        ≤ ((max (c.center_deg - c.right_deg) (c.left_deg - c.center_deg)).toNat : Int) :=
      Int.self_le_toNat _
    have hks : (k : Int) ≤ (k : Int) * c.step_deg :=
      le_mul_of_one_le_right (Int.natCast_nonneg k) hstep
    have h1 : c.center_deg - (k : Int) * c.step_deg < c.right_deg := by
      have := le_max_left (c.center_deg - c.right_deg) (c.left_deg - c.center_deg)
      linarith
    have h2 : c.left_deg < c.center_deg + (k : Int) * c.step_deg := by
      have := le_max_right (c.center_deg - c.right_deg) (c.left_deg - c.center_deg)
      linarith
    rw [buildAnglesAux_succ]
    simp [if_neg (not_le.mpr h1), if_neg (not_le.mpr h2)]
  | succ m ih =>
    intro k acc hk
    rw [buildAnglesAux_succ]
    rcases le_or_lt c.right_deg (c.center_deg - (k : Int) * c.step_deg) with h1 | h1 <;>
      rcases le_or_lt (c.center_deg + (k : Int) * c.step_deg) c.left_deg with h2 | h2
    · simp only [if_pos h1, if_pos h2]
      exact ih (k + 1) _ (by omega)
    · simp only [if_pos h1, if_neg (not_le.mpr h2)]
      exact ih (k + 1) _ (by omega)
    · simp only [if_neg (not_le.mpr h1), if_pos h2]
      exact ih (k + 1) _ (by omega)
    · simp [if_neg (not_le.mpr h1), if_neg (not_le.mpr h2)]

lemma buildAnglesAux_bounded (c : SweepCfg) (hstep : 1 ≤ c.step_deg)
    (hcl : c.center_deg ≤ c.left_deg) (hcr : c.right_deg ≤ c.center_deg) :
    ∀ (n k : Nat) (acc : List Int), 1 ≤ k →
      (∀ x ∈ acc, c.right_deg ≤ x ∧ x ≤ c.left_deg) →
      ∀ l, buildAnglesAux c n k acc = some l →
      ∀ x ∈ l, c.right_deg ≤ x ∧ x ≤ c.left_deg := by
  intro n
  induction n with
  | zero =>
    intro k acc _ _ l hl
    exact absurd hl (by simp [buildAnglesAux])
  | succ m ih =>
    intro k acc hk hacc l hl
    have hpos : (1 : Int) ≤ (k : Int) * c.step_deg := by
      have hk' : (1 : Int) ≤ (k : Int) := by exact_mod_cast hk
      nlinarith
    have hrb : c.right_deg ≤ c.center_deg - (k : Int) * c.step_deg →
        ∀ x ∈ acc ++ [c.center_deg - (k : Int) * c.step_deg],
          c.right_deg ≤ x ∧ x ≤ c.left_deg := by
      intro hr x hx
      rcases List.mem_append.mp hx with hx | hx
      · exact hacc x hx
      · simp at hx
        subst hx
        exact ⟨hr, by linarith⟩
    have hlb : ∀ acc2, (∀ x ∈ acc2, c.right_deg ≤ x ∧ x ≤ c.left_deg) →
        c.center_deg + (k : Int) * c.step_deg ≤ c.left_deg →
        ∀ x ∈ acc2 ++ [c.center_deg + (k : Int) * c.step_deg],
          c.right_deg ≤ x ∧ x ≤ c.left_deg := by
      intro acc2 hacc2 hle x hx
      rcases List.mem_append.mp hx with hx | hx
      · exact hacc2 x hx
      · simp at hx
        subst hx
        exact ⟨by linarith, hle⟩
    rcases le_or_lt c.right_deg (c.center_deg - (k : Int) * c.step_deg) with h1 | h1 <;>
      rcases le_or_lt (c.center_deg + (k : Int) * c.step_deg) c.left_deg with h2 | h2
    · simp only [buildAnglesAux, if_pos h1, if_pos h2] at hl
      exact ih (k + 1) _ (by omega) (hlb _ (hrb h1) h2) l hl
    · simp only [buildAnglesAux, if_pos h1, if_neg (not_le.mpr h2)] at hl
      exact ih (k + 1) _ (by omega) (hrb h1) l hl
    · simp only [buildAnglesAux, if_neg (not_le.mpr h1), if_pos h2] at hl
      exact ih (k + 1) _ (by omega) (hlb _ hacc h2) l hl
    · simp [buildAnglesAux, if_neg (not_le.mpr h1), if_neg (not_le.mpr h2)] at hl
      subst hl
      exact hacc

/-! ### Controller stage lemmas -/

lemma update_speed_state (c : CtrlCfg) (s : CtrlState) (d : ℚ) :
    (update_speed c s d).state = s.state := by
  unfold update_speed
  split_ifs <;> rfl

lemma update_speed_commit (c : CtrlCfg) (s : CtrlState) (d : ℚ) :
    (update_speed c s d).commit_until_ms = s.commit_until_ms := by
  unfold update_speed
  split_ifs <;> rfl

lemma update_speed_backoff (c : CtrlCfg) (s : CtrlState) (d : ℚ) :
    (update_speed c s d).backoff_until_ms = s.backoff_until_ms := by
  unfold update_speed
  split_ifs <;> rfl

lemma update_speed_stall_start (c : CtrlCfg) (s : CtrlState) (d : ℚ) :
    (update_speed c s d).stall_start_ms = s.stall_start_ms := by
  unfold update_speed
  split_ifs <;> rfl

lemma update_speed_last_cmd (c : CtrlCfg) (s : CtrlState) (d : ℚ) :
    (update_speed c s d).last_cmd = s.last_cmd := by
  unfold update_speed
  split_ifs <;> rfl

lemma recovery_stage_no (c : CtrlCfg) (s : CtrlState) (lv now : Int)
    (h : ¬ recovery_due c lv now) :
    recovery_stage c s lv now = (s, "", "") := if_neg h

lemma recovery_stage_yes (c : CtrlCfg) (s : CtrlState) (lv now : Int)
    (h : recovery_due c lv now) :
    recovery_stage c s lv now =
      ({ s with state := "SENSOR_RECOVERY" }, "F,SLOW", "SENSOR_RECOVERY") := if_pos h

lemma backoff_stage_skip (c : CtrlCfg) (now : Int) (dl dr : ℚ) (t : Stage)
    (h : ¬ (t.1.state = "BACKOFF" ∧ t.2.1 = "")) :
    backoff_stage c now dl dr t = t := if_neg h

lemma backoff_stage_hold (c : CtrlCfg) (now : Int) (dl dr : ℚ) (t : Stage)
    (h : t.1.state = "BACKOFF" ∧ t.2.1 = "") (ht : now < t.1.backoff_until_ms) :
    backoff_stage c now dl dr t = (t.1, "B,SLOW", "BACKOFF") := by
  unfold backoff_stage
  rw [if_pos h, if_pos ht]

lemma backoff_stage_spin (c : CtrlCfg) (now : Int) (dl dr : ℚ) (t : Stage)
    (h : t.1.state = "BACKOFF" ∧ t.2.1 = "") (ht : ¬ now < t.1.backoff_until_ms) :
    backoff_stage c now dl dr t =
      ({ t.1 with state := "AVOID_SPIN", commit_until_ms := now + c.min_turn_ms },
       (if dr < dl then "SPINL" else "SPINR"), "AVOID_SPIN") := by
  unfold backoff_stage
  rw [if_pos h, if_neg ht]
  split_ifs <;> rfl

lemma decide_stage_go (c : CtrlCfg) (now : Int) (dl dc dr : ℚ) (t : Stage)
    (h : t.2.1 = "") :
    decide_stage c now dl dc dr t = decide_action c t.1 now dl dc dr := if_pos h

lemma decide_stage_skip (c : CtrlCfg) (now : Int) (dl dc dr : ℚ) (t : Stage)
    (h : ¬ t.2.1 = "") :
    decide_stage c now dl dc dr t = t := if_neg h

lemma decide_action_commit_hold (c : CtrlCfg) (s : CtrlState) (now : Int) (dl dc dr : ℚ)
    (hst : s.state = "AVOID_ARC" ∨ s.state = "AVOID_SPIN")
    (hstop : c.hyst.stop_enter ≤ dc) (hwin : now < s.commit_until_ms) :
    decide_action c s now dl dc dr = (s, s.last_cmd, s.state) := by
  unfold decide_action
  rw [if_neg fun hx => absurd hx.1 (not_lt.mpr hstop), if_pos ⟨hst, hwin⟩]

lemma stall_stage_in_backoff (c : CtrlCfg) (now : Int) (dc : ℚ) (t : Stage)
    (h : t.1.state = "BACKOFF") :
    stall_stage c now dc t = t := if_neg fun hn => hn h

lemma stall_stage_no_fire (c : CtrlCfg) (now : Int) (dc : ℚ) (t : Stage)
    (h : dc < c.hyst.turn_exit → t.1.stall_start_ms ≠ 0 →
      ¬ (c.stall_timer_ms < now - t.1.stall_start_ms ∧ t.1.commit_until_ms ≤ now)) :
    (stall_stage c now dc t).1.state = t.1.state ∧
    (stall_stage c now dc t).1.commit_until_ms = t.1.commit_until_ms ∧
    (stall_stage c now dc t).1.backoff_until_ms = t.1.backoff_until_ms ∧
    (stall_stage c now dc t).1.last_cmd = t.1.last_cmd ∧
    (stall_stage c now dc t).2 = t.2 := by
  unfold stall_stage
  split_ifs with h1 h2 h3 h4
  · exact ⟨rfl, rfl, rfl, rfl, rfl⟩
  · exact absurd h4 (h h2 h3)
  · exact ⟨rfl, rfl, rfl, rfl, rfl⟩
  · exact ⟨rfl, rfl, rfl, rfl, rfl⟩
  · exact ⟨rfl, rfl, rfl, rfl, rfl⟩

lemma emit_stage_fields (c : CtrlCfg) (now : Int) (t : Stage) :
    (emit_stage c now t).1.state = t.1.state ∧
    (emit_stage c now t).1.commit_until_ms = t.1.commit_until_ms ∧
    (emit_stage c now t).1.backoff_until_ms = t.1.backoff_until_ms ∧
    (emit_stage c now t).2.cmd = t.2.1 ∧
    (emit_stage c now t).2.decision = t.2.2 := by
  unfold emit_stage send_once
  dsimp only
  split_ifs <;> exact ⟨rfl, rfl, rfl, rfl, rfl⟩

lemma emit_stage_self (c : CtrlCfg) (now : Int) (t : Stage) (h : t.2.1 = t.1.last_cmd) :
    (emit_stage c now t).1.last_cmd = t.1.last_cmd ∧
    (emit_stage c now t).2.sent = none := by
  unfold emit_stage send_once
  dsimp only
  rw [if_neg (show ¬ (t.2.1 ≠ "" ∧ t.2.1 ≠ t.1.last_cmd) from fun hx => hx.2 h)]
  dsimp only
  split_ifs <;> exact ⟨rfl, rfl⟩

lemma tick_commit_hold (c : CtrlCfg) (s : CtrlState) (inp : CtrlInput)
    (hst : s.state = "AVOID_ARC" ∨ s.state = "AVOID_SPIN")
    (hrec : ¬ recovery_due c inp.last_valid_center_ms inp.now)
    (hstop : c.hyst.stop_enter ≤ inp.dc.getD 999)
    (hwin : inp.now < s.commit_until_ms) :
    (ControlStateMachine.tick c s inp).1.state = s.state ∧
    (ControlStateMachine.tick c s inp).1.commit_until_ms = s.commit_until_ms ∧
    (ControlStateMachine.tick c s inp).1.last_cmd = s.last_cmd ∧
    (ControlStateMachine.tick c s inp).2.cmd = s.last_cmd ∧
    (ControlStateMachine.tick c s inp).2.sent = none := by
  have hu_state := update_speed_state c s (inp.dc.getD 999)
  have hu_commit := update_speed_commit c s (inp.dc.getD 999)
  have hu_last := update_speed_last_cmd c s (inp.dc.getD 999)
  have hB : ¬ ((update_speed c s (inp.dc.getD 999)).state = "BACKOFF" ∧ ("" : String) = "") := by
    rintro ⟨hx, -⟩
    rw [hu_state] at hx
    rcases hst with h | h <;> rw [h] at hx <;> exact absurd hx (by decide)
  obtain ⟨f1, f2, f3, f4, f5⟩ := stall_stage_no_fire c inp.now (inp.dc.getD 999)
    ((update_speed c s (inp.dc.getD 999),
      (update_speed c s (inp.dc.getD 999)).last_cmd,
      (update_speed c s (inp.dc.getD 999)).state) : Stage)
    (fun _ _ hx => absurd hx.2 (not_le.mpr (by
      show inp.now < (update_speed c s (inp.dc.getD 999)).commit_until_ms
      rw [hu_commit]
      exact hwin)))
  obtain ⟨g1, g2, g3, g4, g5⟩ := emit_stage_fields c inp.now
    (stall_stage c inp.now (inp.dc.getD 999)
      ((update_speed c s (inp.dc.getD 999),
        (update_speed c s (inp.dc.getD 999)).last_cmd,
        (update_speed c s (inp.dc.getD 999)).state) : Stage))
  obtain ⟨g6, g7⟩ := emit_stage_self c inp.now
    (stall_stage c inp.now (inp.dc.getD 999)
      ((update_speed c s (inp.dc.getD 999),
        (update_speed c s (inp.dc.getD 999)).last_cmd,
        (update_speed c s (inp.dc.getD 999)).state) : Stage))
    (by rw [f5, f4])
  simp only [ControlStateMachine.tick]
  rw [recovery_stage_no c (update_speed c s (inp.dc.getD 999))
      inp.last_valid_center_ms inp.now hrec,
    backoff_stage_skip c inp.now (inp.dl.getD 999) (inp.dr.getD 999)
      ((update_speed c s (inp.dc.getD 999), "", "") : Stage) hB,
    decide_stage_go c inp.now (inp.dl.getD 999) (inp.dc.getD 999) (inp.dr.getD 999)
      ((update_speed c s (inp.dc.getD 999), "", "") : Stage) rfl,
    decide_action_commit_hold c (update_speed c s (inp.dc.getD 999)) inp.now
      (inp.dl.getD 999) (inp.dc.getD 999) (inp.dr.getD 999)
      (by rw [hu_state]; exact hst) hstop (by rw [hu_commit]; exact hwin)]
  refine ⟨?_, ?_, ?_, ?_, g7⟩
  · rw [g1, f1]
    exact hu_state
  · rw [g2, f2]
    exact hu_commit
  · rw [g6, f4]
    exact hu_last
  · rw [g4, f5]
    exact hu_last

lemma tick_backoff_hold (c : CtrlCfg) (s : CtrlState) (inp : CtrlInput)
    (hb : s.state = "BACKOFF")
    (hrec : ¬ recovery_due c inp.last_valid_center_ms inp.now)
    (ht : inp.now < s.backoff_until_ms) :
    (ControlStateMachine.tick c s inp).1.state = "BACKOFF" ∧
    (ControlStateMachine.tick c s inp).1.backoff_until_ms = s.backoff_until_ms ∧
    (ControlStateMachine.tick c s inp).2.cmd = "B,SLOW" ∧
    (ControlStateMachine.tick c s inp).2.decision = "BACKOFF" := by
  have hu_state := update_speed_state c s (inp.dc.getD 999)
  have hu_backoff := update_speed_backoff c s (inp.dc.getD 999)
  simp only [ControlStateMachine.tick]
  rw [recovery_stage_no c (update_speed c s (inp.dc.getD 999))
      inp.last_valid_center_ms inp.now hrec,
    backoff_stage_hold c inp.now (inp.dl.getD 999) (inp.dr.getD 999)
      ((update_speed c s (inp.dc.getD 999), "", "") : Stage)
      ⟨by rw [hu_state]; exact hb, rfl⟩
      (by
        show inp.now < (update_speed c s (inp.dc.getD 999)).backoff_until_ms
        rw [hu_backoff]
        exact ht)]
  dsimp only
  rw [decide_stage_skip c inp.now (inp.dl.getD 999) (inp.dc.getD 999) (inp.dr.getD 999)
      ((update_speed c s (inp.dc.getD 999), "B,SLOW", "BACKOFF") : Stage)
      (by
        intro hx
        exact absurd (show ("B,SLOW" : String) = "" from hx) (by decide)),
    stall_stage_in_backoff c inp.now (inp.dc.getD 999)
      ((update_speed c s (inp.dc.getD 999), "B,SLOW", "BACKOFF") : Stage)
      (by
        show (update_speed c s (inp.dc.getD 999)).state = "BACKOFF"
        rw [hu_state]
        exact hb)]
  obtain ⟨g1, g2, g3, g4, g5⟩ := emit_stage_fields c inp.now
    ((update_speed c s (inp.dc.getD 999), "B,SLOW", "BACKOFF") : Stage)
  refine ⟨?_, ?_, ?_, ?_⟩
  · rw [g1]
    exact hu_state.trans hb
  · rw [g3]
    exact hu_backoff
  · rw [g4]
  · rw [g5]

/-! ## C2 : sensor recovery -/

/-- C2 as amended: when the sensor-recovery condition holds at a tick,
the tick forces mode SENSOR_RECOVERY and settles on the forward-slow
crawl — unless the stall-detection rule fires at the same tick (center
below turn-exit with a running, expired stall timer and no active commit
window), which is excluded here by hypothesis. -/
theorem sensor_recovery_forces_crawl (c : CtrlCfg) (s : CtrlState) (inp : CtrlInput)
    (hrec : recovery_due c inp.last_valid_center_ms inp.now)
    (hns : inp.dc.getD 999 < c.hyst.turn_exit → s.stall_start_ms ≠ 0 →
      ¬ (c.stall_timer_ms < inp.now - s.stall_start_ms ∧ s.commit_until_ms ≤ inp.now)) :
    (ControlStateMachine.tick c s inp).1.state = "SENSOR_RECOVERY" ∧
    (ControlStateMachine.tick c s inp).2.cmd = "F,SLOW" ∧
    (ControlStateMachine.tick c s inp).2.decision = "SENSOR_RECOVERY" := by
  have hu_stall := update_speed_stall_start c s (inp.dc.getD 999)
  have hu_commit := update_speed_commit c s (inp.dc.getD 999)
  simp only [ControlStateMachine.tick]
  rw [recovery_stage_yes c (update_speed c s (inp.dc.getD 999))
      inp.last_valid_center_ms inp.now hrec,
    backoff_stage_skip c inp.now (inp.dl.getD 999) (inp.dr.getD 999)
      (({ update_speed c s (inp.dc.getD 999) with state := "SENSOR_RECOVERY" },
        "F,SLOW", "SENSOR_RECOVERY") : Stage)
      (by
        rintro ⟨hx, -⟩
        exact absurd (show ("SENSOR_RECOVERY" : String) = "BACKOFF" from hx) (by decide)),
    decide_stage_skip c inp.now (inp.dl.getD 999) (inp.dc.getD 999) (inp.dr.getD 999)
      (({ update_speed c s (inp.dc.getD 999) with state := "SENSOR_RECOVERY" },
        "F,SLOW", "SENSOR_RECOVERY") : Stage)
      (by
        intro hx
        exact absurd (show ("F,SLOW" : String) = "" from hx) (by decide))]
  obtain ⟨f1, f2, f3, f4, f5⟩ := stall_stage_no_fire c inp.now (inp.dc.getD 999)
    (({ update_speed c s (inp.dc.getD 999) with state := "SENSOR_RECOVERY" },
      "F,SLOW", "SENSOR_RECOVERY") : Stage)
    (by
      intro hdc hss
      show ¬ (c.stall_timer_ms < inp.now - (update_speed c s (inp.dc.getD 999)).stall_start_ms ∧
        (update_speed c s (inp.dc.getD 999)).commit_until_ms ≤ inp.now)
      rw [hu_stall, hu_commit]
      refine hns hdc ?_
      show s.stall_start_ms ≠ 0
      rw [← hu_stall]
      exact hss)
  obtain ⟨g1, g2, g3, g4, g5⟩ := emit_stage_fields c inp.now
    (stall_stage c inp.now (inp.dc.getD 999)
      (({ update_speed c s (inp.dc.getD 999) with state := "SENSOR_RECOVERY" },
        "F,SLOW", "SENSOR_RECOVERY") : Stage))
  exact ⟨by rw [g1, f1], by rw [g4, f5], by rw [g5, f5]⟩

/-- Witness for C2: center slot never valid, every other input arbitrary
but stall timer idle. -/
theorem sensor_recovery_forces_crawl_witness :
    (ControlStateMachine.tick defaultCtrlCfg recoveryState recoveryInput).1.state
      = "SENSOR_RECOVERY" ∧
    (ControlStateMachine.tick defaultCtrlCfg recoveryState recoveryInput).2.cmd = "F,SLOW" ∧
    (ControlStateMachine.tick defaultCtrlCfg recoveryState recoveryInput).2.decision
      = "SENSOR_RECOVERY" :=
  sensor_recovery_forces_crawl defaultCtrlCfg recoveryState recoveryInput
    (Or.inl (by decide)) (by decide)

/-- C2, counterexample: a stale-but-once-valid center slot retaining a
30 cm reading with an expired stall timer: the sensor-recovery condition
holds at the tick, yet the tick ends in mode BACKOFF with command B,SLOW
(decision STALL_BACKOFF), not SENSOR_RECOVERY with F,SLOW — the stall
rule runs after sensor recovery and overrides it. -/
theorem sensor_recovery_counterexample :
    recovery_due defaultCtrlCfg staleStallInput.last_valid_center_ms staleStallInput.now ∧
    (ControlStateMachine.tick defaultCtrlCfg staleStallState staleStallInput).1.state
      = "BACKOFF" ∧
    (ControlStateMachine.tick defaultCtrlCfg staleStallState staleStallInput).2.cmd
      = "B,SLOW" ∧
    (ControlStateMachine.tick defaultCtrlCfg staleStallState staleStallInput).2.decision
      = "STALL_BACKOFF" := by
  decide

/-! ## C6 : backoff elapsed turns into a spin -/

/-- C6 (confirmed): on a tick where mode is BACKOFF, the backoff timer
has elapsed, the sensor-recovery condition does not fire, and the
minimum-turn duration is positive, the machine switches to AVOID_SPIN,
commands SPINL when the left reading is strictly greater than the right
and SPINR otherwise, and opens the commit window until now plus the
minimum-turn duration. -/
theorem backoff_elapsed_spins (c : CtrlCfg) (s : CtrlState) (inp : CtrlInput)
    (hb : s.state = "BACKOFF")
    (hrec : ¬ recovery_due c inp.last_valid_center_ms inp.now)
    (he : s.backoff_until_ms ≤ inp.now)
    (hmt : 0 < c.min_turn_ms) :
    (ControlStateMachine.tick c s inp).1.state = "AVOID_SPIN" ∧
    (ControlStateMachine.tick c s inp).1.commit_until_ms = inp.now + c.min_turn_ms ∧
    (ControlStateMachine.tick c s inp).2.cmd
      = (if inp.dr.getD 999 < inp.dl.getD 999 then "SPINL" else "SPINR") ∧
    (ControlStateMachine.tick c s inp).2.decision = "AVOID_SPIN" := by
  have hu_state := update_speed_state c s (inp.dc.getD 999)
  have hu_backoff := update_speed_backoff c s (inp.dc.getD 999)
  simp only [ControlStateMachine.tick]
  rw [recovery_stage_no c (update_speed c s (inp.dc.getD 999))
      inp.last_valid_center_ms inp.now hrec,
    backoff_stage_spin c inp.now (inp.dl.getD 999) (inp.dr.getD 999)
      ((update_speed c s (inp.dc.getD 999), "", "") : Stage)
      ⟨by rw [hu_state]; exact hb, rfl⟩
      (by
        show ¬ inp.now < (update_speed c s (inp.dc.getD 999)).backoff_until_ms
        rw [hu_backoff]
        exact not_lt.mpr he)]
  dsimp only
  rcases lt_or_le (inp.dr.getD 999) (inp.dl.getD 999) with hlr | hlr
  · simp only [if_pos hlr]
    rw [decide_stage_skip c inp.now (inp.dl.getD 999) (inp.dc.getD 999) (inp.dr.getD 999)
        (({ update_speed c s (inp.dc.getD 999) with
            state := "AVOID_SPIN", commit_until_ms := inp.now + c.min_turn_ms },
          "SPINL", "AVOID_SPIN") : Stage)
        (by
          intro hx
          exact absurd (show ("SPINL" : String) = "" from hx) (by decide))]
    obtain ⟨f1, f2, f3, f4, f5⟩ := stall_stage_no_fire c inp.now (inp.dc.getD 999)
      (({ update_speed c s (inp.dc.getD 999) with
          state := "AVOID_SPIN", commit_until_ms := inp.now + c.min_turn_ms },
        "SPINL", "AVOID_SPIN") : Stage)
      (fun _ _ hx => absurd hx.2 (not_le.mpr (by
        show inp.now < inp.now + c.min_turn_ms
        omega)))
    obtain ⟨g1, g2, g3, g4, g5⟩ := emit_stage_fields c inp.now
      (stall_stage c inp.now (inp.dc.getD 999)
        (({ update_speed c s (inp.dc.getD 999) with
            state := "AVOID_SPIN", commit_until_ms := inp.now + c.min_turn_ms },
          "SPINL", "AVOID_SPIN") : Stage))
    exact ⟨by rw [g1, f1], by rw [g2, f2], by rw [g4, f5], by rw [g5, f5]⟩
  · simp only [if_neg (not_lt.mpr hlr)]
    rw [decide_stage_skip c inp.now (inp.dl.getD 999) (inp.dc.getD 999) (inp.dr.getD 999)
        (({ update_speed c s (inp.dc.getD 999) with
            state := "AVOID_SPIN", commit_until_ms := inp.now + c.min_turn_ms },
          "SPINR", "AVOID_SPIN") : Stage)
        (by
          intro hx
          exact absurd (show ("SPINR" : String) = "" from hx) (by decide))]
    obtain ⟨f1, f2, f3, f4, f5⟩ := stall_stage_no_fire c inp.now (inp.dc.getD 999)
      (({ update_speed c s (inp.dc.getD 999) with
          state := "AVOID_SPIN", commit_until_ms := inp.now + c.min_turn_ms },
        "SPINR", "AVOID_SPIN") : Stage)
      (fun _ _ hx => absurd hx.2 (not_le.mpr (by
        show inp.now < inp.now + c.min_turn_ms
        omega)))
    obtain ⟨g1, g2, g3, g4, g5⟩ := emit_stage_fields c inp.now
      (stall_stage c inp.now (inp.dc.getD 999)
        (({ update_speed c s (inp.dc.getD 999) with
            state := "AVOID_SPIN", commit_until_ms := inp.now + c.min_turn_ms },
          "SPINR", "AVOID_SPIN") : Stage))
    exact ⟨by rw [g1, f1], by rw [g2, f2], by rw [g4, f5], by rw [g5, f5]⟩

/-- Witness for C6 at the end-to-end scenario of the spec: backoff ends
at 500 ms, tick at 520 ms with left 80 over right 40 commands SPINL. -/
theorem backoff_elapsed_spins_witness :
    (ControlStateMachine.tick defaultCtrlCfg spinState spinInput).1.state = "AVOID_SPIN" ∧
    (ControlStateMachine.tick defaultCtrlCfg spinState spinInput).1.commit_until_ms
      = spinInput.now + defaultCtrlCfg.min_turn_ms ∧
    (ControlStateMachine.tick defaultCtrlCfg spinState spinInput).2.cmd
      = (if spinInput.dr.getD 999 < spinInput.dl.getD 999 then "SPINL" else "SPINR") ∧
    (ControlStateMachine.tick defaultCtrlCfg spinState spinInput).2.decision = "AVOID_SPIN" :=
  backoff_elapsed_spins defaultCtrlCfg spinState spinInput (by decide) (by decide)
    (by decide) (by decide)

/-! ## C1 : commit window -/

/-- C1, counterexample: inside an open AVOID_ARC commit window (commit
until 1000 ms, tick at 500 ms, held command L,SLOW), a fresh center
reading of 15 cm below stop-enter makes the tick transmit B,SLOW — the
stop-enter check runs before the commit-window hold, so the window does
not shield against readings below stop-enter. -/
theorem commit_window_counterexample :
    commitState.state = "AVOID_ARC" ∧
    commitInput.now < commitState.commit_until_ms ∧
    ¬ recovery_due defaultCtrlCfg commitInput.last_valid_center_ms commitInput.now ∧
    commitState.last_cmd = "L,SLOW" ∧
    (ControlStateMachine.tick defaultCtrlCfg commitState commitInput).2.cmd = "B,SLOW" ∧
    (ControlStateMachine.tick defaultCtrlCfg commitState commitInput).2.sent
      = some "B,SLOW" := by
  decide

/-- C1 as amended: while a commit window is open (mode AVOID_ARC or
AVOID_SPIN and every tick time before the commit-until timestamp), and
at every tick neither the sensor-recovery condition holds nor the center
reading (NaN replaced by the sentinel) is below stop-enter, every tick
settles on the command held at window open (the stored last command),
transmits nothing new, and leaves mode, commit-until and the stored
command unchanged. -/
theorem commit_window_holds (c : CtrlCfg) (s : CtrlState) (inps : List CtrlInput)
    (hst : s.state = "AVOID_ARC" ∨ s.state = "AVOID_SPIN")
    (h : ∀ i ∈ inps, ¬ recovery_due c i.last_valid_center_ms i.now ∧
      c.hyst.stop_enter ≤ i.dc.getD 999 ∧ i.now < s.commit_until_ms) :
    (ControlStateMachine.ticks c s inps).1.state = s.state ∧
    (ControlStateMachine.ticks c s inps).1.commit_until_ms = s.commit_until_ms ∧
    (ControlStateMachine.ticks c s inps).1.last_cmd = s.last_cmd ∧
    ((ControlStateMachine.ticks c s inps).2).map TickOut.cmd
      = inps.map (fun _ => s.last_cmd) ∧
    ((ControlStateMachine.ticks c s inps).2).map TickOut.sent
      = inps.map (fun _ => none) := by
  induction inps generalizing s with
  | nil => exact ⟨rfl, rfl, rfl, rfl, rfl⟩
  | cons i rest ih =>
    obtain ⟨h1, h2, h3⟩ := h i (by simp)
    obtain ⟨e1, e2, e3, e4, e5⟩ := tick_commit_hold c s i hst h1 h2 h3
    obtain ⟨d1, d2, d3, d4, d5⟩ := ih (ControlStateMachine.tick c s i).1
      (by rw [e1]; exact hst)
      (fun j hj => by
        obtain ⟨j1, j2, j3⟩ := h j (by simp [hj])
        exact ⟨j1, j2, by rw [e2]; exact j3⟩)
    simp only [e3] at d4
    simp only [ControlStateMachine.ticks]
    refine ⟨?_, ?_, ?_, ?_, ?_⟩
    · rw [d1, e1]
    · rw [d2, e2]
    · rw [d3, e3]
    · simp only [List.map_cons, e4, d4]
    · simp only [List.map_cons, e5, d5]

/-- Witness for C1: an AVOID_ARC window held over two in-window ticks
with fresh, unthreatening readings. -/
theorem commit_window_holds_witness :
    (ControlStateMachine.ticks defaultCtrlCfg commitState
        [commitHoldIn1, commitHoldIn2]).1.state = commitState.state ∧
    (ControlStateMachine.ticks defaultCtrlCfg commitState
        [commitHoldIn1, commitHoldIn2]).1.commit_until_ms = commitState.commit_until_ms ∧
    (ControlStateMachine.ticks defaultCtrlCfg commitState
        [commitHoldIn1, commitHoldIn2]).1.last_cmd = commitState.last_cmd ∧
    ((ControlStateMachine.ticks defaultCtrlCfg commitState
        [commitHoldIn1, commitHoldIn2]).2).map TickOut.cmd
      = [commitHoldIn1, commitHoldIn2].map (fun _ => commitState.last_cmd) ∧
    ((ControlStateMachine.ticks defaultCtrlCfg commitState
        [commitHoldIn1, commitHoldIn2]).2).map TickOut.sent
      = [commitHoldIn1, commitHoldIn2].map (fun _ => none) :=
  commit_window_holds defaultCtrlCfg commitState [commitHoldIn1, commitHoldIn2]
    (Or.inl (by decide)) (by decide)

/-! ## C3 : backoff fires once -/

/-- C3, counterexample: in mid-backoff (timer not elapsed) with center
still below stop-enter but the last valid center reading 4000 ms old,
the tick switches mode to SENSOR_RECOVERY and commands F,SLOW instead of
keeping BACKOFF and repeating B,SLOW — the sensor-recovery rule runs
first and changes the mode. -/
theorem backoff_single_trigger_counterexample :
    staleBackoffState.state = "BACKOFF" ∧
    staleBackoffInput.dc.getD 999 < defaultCtrlCfg.hyst.stop_enter ∧
    staleBackoffInput.now < staleBackoffState.backoff_until_ms ∧
    (ControlStateMachine.tick defaultCtrlCfg staleBackoffState staleBackoffInput).1.state
      ≠ "BACKOFF" ∧
    (ControlStateMachine.tick defaultCtrlCfg staleBackoffState staleBackoffInput).2.cmd
      ≠ "B,SLOW" := by
  decide

/-- C3 as amended: once mode is BACKOFF, every subsequent tick with the
sensor-recovery condition not holding, center still below stop-enter and
the backoff timer not yet elapsed keeps mode BACKOFF, leaves the
backoff-until timestamp unchanged (the transition is not retriggered)
and repeats B,SLOW with decision BACKOFF. -/
theorem backoff_single_trigger (c : CtrlCfg) (s : CtrlState) (inps : List CtrlInput)
    (hb : s.state = "BACKOFF")
    (h : ∀ i ∈ inps, ¬ recovery_due c i.last_valid_center_ms i.now ∧
      i.dc.getD 999 < c.hyst.stop_enter ∧ i.now < s.backoff_until_ms) :
    (ControlStateMachine.ticks c s inps).1.state = "BACKOFF" ∧
    (ControlStateMachine.ticks c s inps).1.backoff_until_ms = s.backoff_until_ms ∧
    ((ControlStateMachine.ticks c s inps).2).map TickOut.cmd
      = inps.map (fun _ => "B,SLOW") ∧
    ((ControlStateMachine.ticks c s inps).2).map TickOut.decision
      = inps.map (fun _ => "BACKOFF") := by
  induction inps generalizing s with
  | nil => exact ⟨hb, rfl, rfl, rfl⟩
  | cons i rest ih =>
    obtain ⟨h1, h2, h3⟩ := h i (by simp)
    obtain ⟨e1, e2, e3, e4⟩ := tick_backoff_hold c s i hb h1 h3
    obtain ⟨d1, d2, d3, d4⟩ := ih (ControlStateMachine.tick c s i).1 e1
      (fun j hj => by
        obtain ⟨j1, j2, j3⟩ := h j (by simp [hj])
        exact ⟨j1, j2, by rw [e2]; exact j3⟩)
    simp only [ControlStateMachine.ticks]
    refine ⟨by rw [d1], by rw [d2, e2], ?_, ?_⟩
    · simp only [List.map_cons, e3, d3]
    · simp only [List.map_cons, e4, d4]

/-- Witness for C3: one mid-backoff tick with a fresh 15 cm center
reading repeats B,SLOW and keeps the timer. -/
theorem backoff_single_trigger_witness :
    (ControlStateMachine.ticks defaultCtrlCfg staleBackoffState
        [backoffHoldInput]).1.state = "BACKOFF" ∧
    (ControlStateMachine.ticks defaultCtrlCfg staleBackoffState
        [backoffHoldInput]).1.backoff_until_ms = staleBackoffState.backoff_until_ms ∧
    ((ControlStateMachine.ticks defaultCtrlCfg staleBackoffState
        [backoffHoldInput]).2).map TickOut.cmd = [backoffHoldInput].map (fun _ => "B,SLOW") ∧
    ((ControlStateMachine.ticks defaultCtrlCfg staleBackoffState
        [backoffHoldInput]).2).map TickOut.decision
      = [backoffHoldInput].map (fun _ => "BACKOFF") :=
  backoff_single_trigger defaultCtrlCfg staleBackoffState [backoffHoldInput]
    (by decide) (by decide)

/-! ## C4 : ping cooldown -/

/-- C4, refuted (code bug): from the initial state, the scheduler
commands the servo at t=800, sends the first PING at t=900 (attempts
becomes 1), consumes a `DIST,NA` reply at t=930, and then at t=935 sends
a second PING even though only 35 ms of the 40 ms measurement cooldown
have elapsed since the previous request: the re-ping gate tests for an
empty sample buffer instead of testing the attempt counter, so after an
unavailable reply the cooldown is ignored. -/
theorem ping_cooldown_violation :
    (let s := (SensingOrchestrator.ticks defaultSweepCfg pfW
        (SensState.init defaultSweepCfg defaultAngles)
        [(800, []), (900, []), (930, ["DIST,NA"])]).1
     1 ≤ s.attempts ∧
       935 - s.last_ping_ms < defaultSweepCfg.meas_cooldown_ms ∧
       (SensingOrchestrator.tick defaultSweepCfg pfW s 935 []).2 = ["PING"]) := by
  decide

/-! ## C5 : a lost ranging reply stalls the sweep -/

/-- C5 (confirmed): while the awaiting-reply flag is set, any sequence of
ticks in which no inbound line is a `DIST,` reply leaves the scan-point
state completely unchanged and writes nothing outbound: no servo
command, no ranging request, no give-up, no cycle advance. -/
theorem lost_reply_stalls_scan (c : SweepCfg) (pf : String → Option ℚ) (s : SensState)
    (hw : s.awaiting_ping = true)
    (hs : s.samples.length < c.samples_per_point)
    (steps : List (Int × List String))
    (hl : ∀ p ∈ steps, ∀ l ∈ p.2, ¬ is_dist_line l) :
    SensingOrchestrator.ticks c pf s steps = (s, []) := by
  induction steps with
  | nil => rfl
  | cons p rest ih =>
    simp only [SensingOrchestrator.ticks]
    rw [tick_awaiting_frozen c pf s p.1 p.2 hw hs (hl p (by simp)),
      ih fun q hq => hl q (by simp [hq])]
    rfl

/-- Witness for C5 at a concrete stuck state and two quiet ticks. -/
theorem lost_reply_stalls_scan_witness :
    SensingOrchestrator.ticks defaultSweepCfg pfW awaitState
      [(1000, ["OK", "STAT,5"]), (2000, [""])] = (awaitState, []) :=
  lost_reply_stalls_scan defaultSweepCfg pfW awaitState (by decide) (by decide)
    [(1000, ["OK", "STAT,5"]), (2000, [""])] (by decide)

/-! ## C7 : angle cycle bounds -/

/-- C7, counterexample: with center trim 100 the center angle is 190,
the built cycle contains it (and further out-of-range angles), and 190
exceeds the left bound 135 — the cycle is not contained in
[right bound, left bound] for every configuration. -/
theorem angle_bounds_counterexample :
    build_angles_cycle trimCfg = some trimAngles ∧
    trimCfg.center_deg ∈ trimAngles ∧
    ¬ (trimCfg.center_deg ≤ trimCfg.left_deg) := by
  decide

/-- C7 as amended: when the step is positive and the configured center
lies between the right and left bounds, every element of the built angle
cycle lies within [right bound, left bound]. -/
theorem angle_cycle_bounded (c : SweepCfg) (hstep : 1 ≤ c.step_deg)
    (hcl : c.center_deg ≤ c.left_deg) (hcr : c.right_deg ≤ c.center_deg)
    (l : List Int) (hl : build_angles_cycle c = some l) :
    ∀ x ∈ l, c.right_deg ≤ x ∧ x ≤ c.left_deg :=
  buildAnglesAux_bounded c hstep hcl hcr (anglesFuel c) 1 [c.center_deg] (by omega)
    (by
      intro x hx
      simp only [List.mem_singleton] at hx
      subst hx
      exact ⟨hcr, hcl⟩)
    l hl

/-- Witness for C7 on the default configuration: the element 75 of the
default cycle is within [45, 135]. -/
theorem angle_cycle_bounded_witness :
    defaultSweepCfg.right_deg ≤ 75 ∧ (75 : Int) ≤ defaultSweepCfg.left_deg :=
  angle_cycle_bounded defaultSweepCfg (by decide) (by decide) (by decide)
    defaultAngles (by decide) 75 (by decide)

/-! ## C8 : angle cycle construction terminates -/

/-- C8, counterexample: with step 0 (and the default center 90 and right
bound 45) the loop of the angle-cycle construction never exits — no
amount of fuel makes it stop. -/
theorem angle_cycle_nonterminating : ¬ cycleTerminates stepZeroCfg := by
  intro h
  obtain ⟨n, hn⟩ := h
  rw [buildAnglesAux_stepZero n 1 [stepZeroCfg.center_deg]] at hn
  exact absurd hn (by simp)

/-- C8 as amended: for every configuration with positive step the
angle-cycle loop terminates. -/
theorem angle_cycle_terminates (c : SweepCfg) (hstep : 1 ≤ c.step_deg) :
    cycleTerminates c := by
  refine ⟨anglesFuel c, ?_⟩
  have h := buildAnglesAux_exits c hstep
    ((max (c.center_deg - c.right_deg) (c.left_deg - c.center_deg)).toNat + 1)
    1 [c.center_deg] (by omega)
  simpa [anglesFuel, Nat.add_assoc] using h

/-- Witness for C8 at the default configuration (step 15). -/
theorem angle_cycle_terminates_witness : cycleTerminates defaultSweepCfg :=
  angle_cycle_terminates defaultSweepCfg (by decide)

/-! ## C9 : draining distance replies -/

/-- C9 (confirmed): draining one inbound line behaves by cases: a
`DIST,` line whose non-NA payload parses appends the value to the sample
buffer and clears the awaiting flag; a `DIST,NA` line or a `DIST,` line
whose payload fails to parse clears the awaiting flag without appending
(and raises nothing — the function is total); any other line leaves the
state unchanged. -/
theorem consume_lines_cases (pf : String → Option ℚ) (s : SensState) (line : String) :
    (∀ v : ℚ, is_dist_line line → dist_payload line ≠ "NA" →
      pf (dist_payload line) = some v →
      consume_lines pf s [line] =
        { s with samples := s.samples ++ [v], awaiting_ping := false }) ∧
    (is_dist_line line → (dist_payload line = "NA" ∨ pf (dist_payload line) = none) →
      consume_lines pf s [line] = { s with awaiting_ping := false }) ∧
    (¬ is_dist_line line → consume_lines pf s [line] = s) := by
  refine ⟨?_, ?_, ?_⟩
  · intro v hd hna hp
    simp only [consume_lines, if_neg (is_dist_line_ne_empty hd), consume_line,
      if_pos hd, if_pos hna, hp]
  · intro hd hcase
    rcases hcase with hna | hp
    · simp only [consume_lines, if_neg (is_dist_line_ne_empty hd), consume_line,
        if_pos hd, hna, if_neg (by simp : ¬ ("NA" : String) ≠ "NA")]
    · by_cases hna : dist_payload line = "NA"
      · simp only [consume_lines, if_neg (is_dist_line_ne_empty hd), consume_line,
          if_pos hd, hna, if_neg (by simp : ¬ ("NA" : String) ≠ "NA")]
      · simp only [consume_lines, if_neg (is_dist_line_ne_empty hd), consume_line,
          if_pos hd, if_pos hna, hp]
  · intro hd
    by_cases he : line = ""
    · simp [consume_lines, he]
    · simp only [consume_lines, if_neg he, consume_line, if_neg hd]

/-- Witness for C9: a numeric reply, an NA reply and an unrelated line
against a concrete state. -/
theorem consume_lines_cases_witness :
    consume_lines pfW awaitState ["DIST,42"] =
      { awaitState with samples := awaitState.samples ++ [42], awaiting_ping := false } ∧
    consume_lines pfW awaitState ["DIST,NA"] = { awaitState with awaiting_ping := false } ∧
    consume_lines pfW awaitState ["OK"] = awaitState :=
  ⟨(consume_lines_cases pfW awaitState "DIST,42").1 42 (by decide) (by decide) (by decide),
   (consume_lines_cases pfW awaitState "DIST,NA").2.1 (by decide) (Or.inl (by decide)),
   (consume_lines_cases pfW awaitState "OK").2.2 (by decide)⟩

/-! ## C10 : command de-duplication -/

/-- C10, counterexample: two consecutive ticks both producing the
non-empty command F,FAST while that command was already the last one
sent result in zero transmissions, not exactly one. -/
theorem dedup_counterexample :
    "F,FAST" ≠ "" ∧
    (send_once "F,FAST" "F,FAST").2 = none ∧
    (send_once (send_once "F,FAST" "F,FAST").1 "F,FAST").2 = none := by
  decide

/-- C10 as amended: for two consecutive ticks producing the identical
non-empty command, the first transmits exactly when the command differs
from the last command sent before the pair, and the second never
transmits — at most one transmission, exactly one when the command is
new. -/
theorem send_dedup (last cmd : String) (hne : cmd ≠ "") :
    (send_once last cmd).2 = (if cmd = last then none else some cmd) ∧
    (send_once (send_once last cmd).1 cmd).2 = none := by
  by_cases h : cmd = last
  · subst h
    simp [send_once]
  · simp [send_once, hne, h]

/-- Witness for C10 with an empty previous command and F,FAST twice. -/
theorem send_dedup_witness :
    (send_once "" "F,FAST").2 = (if "F,FAST" = ("" : String) then none else some "F,FAST") ∧
    (send_once (send_once "" "F,FAST").1 "F,FAST").2 = none :=
  send_dedup "" "F,FAST" (by decide)

end Robot
